import Mathlib

/-!
Verification of the message composers in `src/io.c` of liblightorama.

The C code writes protocol messages byte-by-byte into a caller-supplied
`unsigned char *` cursor and returns the number of bytes written.  We model
memory as a total function `Nat → Nat` holding byte values; a store through
an `unsigned char` lvalue truncates the stored value mod 256, which `upd`
performs.  Each `lor_write_*` function below is a line-by-line translation
of the corresponding C function: it takes the cursor (a base address) and
the memory, and returns the memory after the writes together with the
returned byte count.

Constants and the helper `lor_get_channel_magic` live in the repository's
`include/protocol.h` / `src/protocol.c`, which are not among the provided
sources; they are modelled from the spec where noted.
-/

namespace LOR

/-- Byte-addressed memory: address to stored byte value. -/
def Buf : Type := Nat → Nat

/-- Store one byte: C assignment through an `unsigned char` lvalue truncates
the written value mod 256. -/
def upd (buf : Buf) (a v : Nat) : Buf := fun x => if x = a then v % 256 else buf x

/-- The all-zero memory, used for concrete evaluations. -/
def bufZ : Buf := fun _ => 0

/-- `LORChannelType` from `include/io.h`: the tag of the channel reference. -/
inductive LORChannelType where
  | id
  | mask8
  | mask16
deriving DecidableEq

/-- `LORChannel` from `include/io.h`: tagged channel reference.  `bits` is a
`lor_channel_t` (`uint16_t`), `chain_index` a `uint8_t`. -/
structure LORChannel where
  type : LORChannelType
  bits : Nat
  chain_index : Nat
deriving DecidableEq

/-- Modelled from the spec: `LOR_UNIT_ID_BROADCAST` is declared in
`include/protocol.h`, which is not among the provided sources; the spec fixes
it only as a reserved broadcast byte value. -/
def LOR_UNIT_ID_BROADCAST : Nat := 0xFF

/-- Modelled from the spec: the fixed "AND" magic separator byte from
`include/protocol.h` (not among the provided sources). -/
def LOR_MAGIC_AND : Nat := 0x81

/-- Modelled from the spec: the fixed heartbeat magic byte from
`include/protocol.h` (not among the provided sources). -/
def LOR_MAGIC_HEARTBEAT : Nat := 0x56

/-- Modelled from the spec: the fixed channel-id tag bit pattern OR'd into the
single-id encoding, from `include/protocol.h` (not among the provided
sources). -/
def LOR_MAGIC_CHANNEL_ID_MASK : Nat := 0x80

/-- Modelled from the spec: channel-magic tag constant for the `SingleId`
variant, from `include/protocol.h` (not among the provided sources). -/
def LOR_MAGIC_CHANNEL_ID : Nat := 0x00

/-- Modelled from the spec: channel-magic tag constant for the `Mask8`
variant, from `include/protocol.h` (not among the provided sources). -/
def LOR_MAGIC_CHANNEL_MASK8 : Nat := 0x10

/-- Modelled from the spec: channel-magic tag constant for the `Mask16`
variant, from `include/protocol.h` (not among the provided sources). -/
def LOR_MAGIC_CHANNEL_MASK16 : Nat := 0x50

/-- Modelled from the spec: the channel-level FADE action opcode from
`include/protocol.h` (not among the provided sources). -/
def LOR_ACTION_CHANNEL_FADE : Nat := 0x04

/-- Modelled from the spec: the channel-level SET_BRIGHTNESS action opcode
from `include/protocol.h` (not among the provided sources). -/
def LOR_ACTION_CHANNEL_SET_BRIGHTNESS : Nat := 0x03

/-- Modelled from the spec: `lor_get_channel_magic` (defined in
`src/protocol.c`, not among the provided sources) selects the action-byte tag
bits based solely on the channel's variant, independent of `chain_index`. -/
def lor_get_channel_magic (channel : LORChannel) : Nat :=
  match channel.type with
  | .id => LOR_MAGIC_CHANNEL_ID
  | .mask8 => LOR_MAGIC_CHANNEL_MASK8
  | .mask16 => LOR_MAGIC_CHANNEL_MASK16

/-- Modelled from the spec: `lor_duration_of` (defined in `src/protocol.c`,
not among the provided sources) maps seconds to a 16-bit tick count by a
fixed linear scale with rounding.  Only its type matters for the claims
below; its value is never inspected. -/
def lor_duration_of (seconds : Float) : Nat :=
  ((seconds * 10.0).round).toUInt64.toNat % 65536

/-- `lor_write_heartbeat` from `src/io.c`. -/
def lor_write_heartbeat (ptr : Nat) (buf : Buf) : Buf × Nat :=
  let buf := upd buf (ptr + 0) LOR_UNIT_ID_BROADCAST
  let buf := upd buf (ptr + 1) LOR_MAGIC_AND
  let buf := upd buf (ptr + 2) LOR_MAGIC_HEARTBEAT
  (buf, 3)

/-- `lor_write_brightness` from `src/io.c`. -/
def lor_write_brightness (brightness : Nat) (ptr : Nat) (buf : Buf) : Buf × Nat :=
  (upd buf ptr brightness, 1)

/-- `lor_write_brightnessf` from `src/io.c`: applies the curve, then writes.
The curve is the caller-supplied `lor_brightness_curve_t` function value. -/
def lor_write_brightnessf (normal : Float) (brightness_curve : Float → Nat)
    (ptr : Nat) (buf : Buf) : Buf × Nat :=
  lor_write_brightness (brightness_curve normal) ptr buf

/-- `lor_write_duration` from `src/io.c`. -/
def lor_write_duration (duration : Nat) (ptr : Nat) (buf : Buf) : Buf × Nat :=
  let n := 0
  let buf := upd buf (ptr + n) ((duration &&& 0xFF00) >>> 8)
  let n := n + 1
  let buf := upd buf (ptr + n) (duration &&& 0x00FF)
  let n := n + 1
  (buf, n)

/-- `lor_write_durationf` from `src/io.c`. -/
def lor_write_durationf (seconds : Float) (ptr : Nat) (buf : Buf) : Buf × Nat :=
  lor_write_duration (lor_duration_of seconds) ptr buf

/-- `lor_write_channel` from `src/io.c`. -/
def lor_write_channel (channel : LORChannel) (ptr : Nat) (buf : Buf) : Buf × Nat :=
  let n := 0
  let r : Buf × Nat :=
    if channel.chain_index > 0 then (upd buf (ptr + n) channel.chain_index, n + 1)
    else (buf, n)
  let buf := r.1
  let n := r.2
  match channel.type with
  | .id => (upd buf (ptr + n) (LOR_MAGIC_CHANNEL_ID_MASK ||| channel.bits), n + 1)
  | .mask8 => (upd buf (ptr + n) channel.bits, n + 1)
  | .mask16 =>
      (upd (upd buf (ptr + n) ((channel.bits &&& 0xFF00) >>> 8))
        (ptr + n + 1) (channel.bits &&& 0x00FF), n + 2)

/-- `lor_write_channel_action` from `src/io.c`. -/
def lor_write_channel_action (unit action : Nat) (channel : LORChannel)
    (ptr : Nat) (buf : Buf) : Buf × Nat :=
  let n := 0
  let buf := upd buf (ptr + n) unit
  let n := n + 1
  let buf := upd buf (ptr + n) (lor_get_channel_magic channel ||| action)
  let n := n + 1
  let r := lor_write_channel channel (ptr + n) buf
  (r.1, n + r.2)

/-- `lor_write_channel_fade` from `src/io.c`. -/
def lor_write_channel_fade (unit : Nat) (channel : LORChannel)
    (fr t dur : Nat) (ptr : Nat) (buf : Buf) : Buf × Nat :=
  let n := 0
  let buf := upd buf (ptr + n) unit
  let n := n + 1
  let buf := upd buf (ptr + n) (lor_get_channel_magic channel ||| LOR_ACTION_CHANNEL_FADE)
  let n := n + 1
  let r1 := lor_write_brightness fr (ptr + n) buf
  let n := n + r1.2
  let r2 := lor_write_brightness t (ptr + n) r1.1
  let n := n + r2.2
  let r3 := lor_write_duration dur (ptr + n) r2.1
  let n := n + r3.2
  let r4 := lor_write_channel channel (ptr + n) r3.1
  (r4.1, n + r4.2)

/-- `lor_write_channel_fade_with` from `src/io.c`. -/
def lor_write_channel_fade_with (unit foreground_action : Nat) (channel : LORChannel)
    (fr t dur : Nat) (ptr : Nat) (buf : Buf) : Buf × Nat :=
  let n := 0
  let buf := upd buf (ptr + n) unit
  let n := n + 1
  let buf := upd buf (ptr + n) (lor_get_channel_magic channel ||| foreground_action)
  let n := n + 1
  let r1 := lor_write_channel channel (ptr + n) buf
  let n := n + r1.2
  let buf := upd r1.1 (ptr + n) LOR_MAGIC_AND
  let n := n + 1
  let buf := upd buf (ptr + n) (lor_get_channel_magic channel ||| LOR_ACTION_CHANNEL_FADE)
  let n := n + 1
  let r2 := lor_write_brightness fr (ptr + n) buf
  let n := n + r2.2
  let r3 := lor_write_brightness t (ptr + n) r2.1
  let n := n + r3.2
  let r4 := lor_write_duration dur (ptr + n) r3.1
  (r4.1, n + r4.2)

/-- `lor_write_channel_set_brightness` from `src/io.c`. -/
def lor_write_channel_set_brightness (unit : Nat) (channel : LORChannel)
    (t : Nat) (ptr : Nat) (buf : Buf) : Buf × Nat :=
  let n := 0
  let buf := upd buf (ptr + n) unit
  let n := n + 1
  let buf := upd buf (ptr + n) (lor_get_channel_magic channel ||| LOR_ACTION_CHANNEL_SET_BRIGHTNESS)
  let n := n + 1
  let r1 := lor_write_brightness t (ptr + n) buf
  let n := n + r1.2
  let r2 := lor_write_channel channel (ptr + n) r1.1
  (r2.1, n + r2.2)

/-- `lor_write_unit_action` from `src/io.c`. -/
def lor_write_unit_action (unit action : Nat) (ptr : Nat) (buf : Buf) : Buf × Nat :=
  let buf := upd buf (ptr + 0) unit
  let buf := upd buf (ptr + 1) action
  (buf, 2)

/-- Write a list of byte values at consecutive addresses starting at `ptr`. -/
def writeList (buf : Buf) (ptr : Nat) : List Nat → Buf
  | [] => buf
  | v :: rest => writeList (upd buf ptr v) (ptr + 1) rest

/-- Read `n` consecutive bytes starting at `ptr`. -/
def readBytes (buf : Buf) (ptr : Nat) : Nat → List Nat
  | 0 => []
  | n + 1 => buf ptr :: readBytes buf (ptr + 1) n

/-- The byte sequence `lor_write_channel` emits (before the mod-256 store
truncation): the chain index first when nonzero, then the variant encoding. -/
def channel_bytes (channel : LORChannel) : List Nat :=
  (if channel.chain_index > 0 then [channel.chain_index] else []) ++
    (match channel.type with
     | .id => [LOR_MAGIC_CHANNEL_ID_MASK ||| channel.bits]
     | .mask8 => [channel.bits]
     | .mask16 => [(channel.bits &&& 0xFF00) >>> 8, channel.bits &&& 0x00FF])

/-- Byte sequence of the heartbeat message. -/
def heartbeat_bytes : List Nat :=
  [LOR_UNIT_ID_BROADCAST, LOR_MAGIC_AND, LOR_MAGIC_HEARTBEAT]

/-- Byte sequence of `lor_write_duration`. -/
def duration_bytes (duration : Nat) : List Nat :=
  [(duration &&& 0xFF00) >>> 8, duration &&& 0x00FF]

/-- Byte sequence of `lor_write_unit_action`. -/
def unit_action_bytes (unit action : Nat) : List Nat :=
  [unit, action]

/-- Byte sequence of `lor_write_channel_action`. -/
def channel_action_bytes (unit action : Nat) (channel : LORChannel) : List Nat :=
  [unit, lor_get_channel_magic channel ||| action] ++ channel_bytes channel

/-- Byte sequence of `lor_write_channel_fade`. -/
def channel_fade_bytes (unit : Nat) (channel : LORChannel) (fr t dur : Nat) : List Nat :=
  [unit, lor_get_channel_magic channel ||| LOR_ACTION_CHANNEL_FADE, fr, t] ++
    duration_bytes dur ++ channel_bytes channel

/-- Byte sequence of `lor_write_channel_fade_with`. -/
def channel_fade_with_bytes (unit foreground_action : Nat) (channel : LORChannel)
    (fr t dur : Nat) : List Nat :=
  [unit, lor_get_channel_magic channel ||| foreground_action] ++ channel_bytes channel ++
    [LOR_MAGIC_AND, lor_get_channel_magic channel ||| LOR_ACTION_CHANNEL_FADE, fr, t] ++
    duration_bytes dur

/-- Byte sequence of `lor_write_channel_set_brightness`. -/
def channel_set_brightness_bytes (unit : Nat) (channel : LORChannel) (t : Nat) : List Nat :=
  [unit, lor_get_channel_magic channel ||| LOR_ACTION_CHANNEL_SET_BRIGHTNESS, t] ++
    channel_bytes channel

/-- A call result writes exactly the message `msg` at the cursor: the returned
count is `msg.length`, the bytes at offsets `0..count` are `msg` (truncated
mod 256 by the byte stores), and every other address is untouched. -/
def writes_exactly (out : Buf × Nat) (ptr : Nat) (buf : Buf) (msg : List Nat) : Prop :=
  out.2 = msg.length ∧
  readBytes out.1 ptr out.2 = msg.map (fun v => v % 256) ∧
  ∀ x, x < ptr ∨ ptr + out.2 ≤ x → out.1 x = buf x

theorem writeList_frame (l : List Nat) (buf : Buf) (ptr x : Nat)
    (h : x < ptr ∨ ptr + l.length ≤ x) : writeList buf ptr l x = buf x := by
  induction l generalizing buf ptr with
  | nil => rfl
  | cons v rest ih =>
      have hx : x ≠ ptr := by
        rcases h with h | h
        · omega
        · simp only [List.length_cons] at h; omega
      have step : writeList (upd buf ptr v) (ptr + 1) rest x = upd buf ptr v x := by
        apply ih
        rcases h with h | h
        · exact Or.inl (by omega)
        · exact Or.inr (by simp only [List.length_cons] at h; omega)
      calc writeList buf ptr (v :: rest) x
          = writeList (upd buf ptr v) (ptr + 1) rest x := rfl
        _ = upd buf ptr v x := step
        _ = buf x := by simp [upd, hx]

theorem readBytes_writeList (l : List Nat) (buf : Buf) (ptr : Nat) :
    readBytes (writeList buf ptr l) ptr l.length = l.map (fun v => v % 256) := by
  induction l generalizing buf ptr with
  | nil => rfl
  | cons v rest ih =>
      show (writeList (upd buf ptr v) (ptr + 1) rest) ptr ::
          readBytes (writeList (upd buf ptr v) (ptr + 1) rest) (ptr + 1) rest.length = _
      have hhd : (writeList (upd buf ptr v) (ptr + 1) rest) ptr = v % 256 := by
        rw [writeList_frame rest (upd buf ptr v) (ptr + 1) ptr (Or.inl (by omega))]
        simp [upd]
      rw [hhd, ih]
      rfl

theorem writeList_append (l1 l2 : List Nat) (buf : Buf) (ptr : Nat) :
    writeList buf ptr (l1 ++ l2) = writeList (writeList buf ptr l1) (ptr + l1.length) l2 := by
  induction l1 generalizing buf ptr with
  | nil => simp [writeList]
  | cons v rest ih =>
      show writeList (upd buf ptr v) (ptr + 1) (rest ++ l2) = _
      rw [ih]
      have : ptr + 1 + rest.length = ptr + (rest.length + 1) := by omega
      rw [this]
      rfl

theorem lor_write_heartbeat_eq (ptr : Nat) (buf : Buf) :
    lor_write_heartbeat ptr buf = (writeList buf ptr heartbeat_bytes, heartbeat_bytes.length) := rfl

theorem lor_write_brightness_eq (b ptr : Nat) (buf : Buf) :
    lor_write_brightness b ptr buf = (writeList buf ptr [b], 1) := rfl

theorem lor_write_brightnessf_eq (normal : Float) (curve : Float → Nat) (ptr : Nat) (buf : Buf) :
    lor_write_brightnessf normal curve ptr buf = (writeList buf ptr [curve normal], 1) := rfl

theorem lor_write_duration_eq (d ptr : Nat) (buf : Buf) :
    lor_write_duration d ptr buf = (writeList buf ptr (duration_bytes d), (duration_bytes d).length) := rfl

theorem lor_write_durationf_eq (s : Float) (ptr : Nat) (buf : Buf) :
    lor_write_durationf s ptr buf
      = (writeList buf ptr (duration_bytes (lor_duration_of s)),
         (duration_bytes (lor_duration_of s)).length) := rfl

theorem lor_write_unit_action_eq (u a ptr : Nat) (buf : Buf) :
    lor_write_unit_action u a ptr buf
      = (writeList buf ptr (unit_action_bytes u a), (unit_action_bytes u a).length) := rfl

theorem lor_write_channel_eq (c : LORChannel) (ptr : Nat) (buf : Buf) :
    lor_write_channel c ptr buf
      = (writeList buf ptr (channel_bytes c), (channel_bytes c).length) := by
  obtain ⟨t, bits, ci⟩ := c
  cases t <;> by_cases h : ci > 0 <;>
    simp [lor_write_channel, channel_bytes, h, writeList]

theorem lor_write_channel_action_eq (u a : Nat) (c : LORChannel) (ptr : Nat) (buf : Buf) :
    lor_write_channel_action u a c ptr buf
      = (writeList buf ptr (channel_action_bytes u a c), (channel_action_bytes u a c).length) := by
  simp only [lor_write_channel_action]
  rw [lor_write_channel_eq]
  refine Prod.ext rfl ?_
  show 0 + 1 + 1 + (channel_bytes c).length = (channel_action_bytes u a c).length
  simp only [channel_action_bytes, List.length_append, List.length_cons, List.length_nil]

theorem lor_write_channel_set_brightness_eq (u : Nat) (c : LORChannel) (t ptr : Nat) (buf : Buf) :
    lor_write_channel_set_brightness u c t ptr buf
      = (writeList buf ptr (channel_set_brightness_bytes u c t),
         (channel_set_brightness_bytes u c t).length) := by
  simp only [lor_write_channel_set_brightness, lor_write_brightness]
  rw [lor_write_channel_eq]
  simp_arith [channel_set_brightness_bytes, writeList_append, writeList,
    List.length_append, List.length_cons, List.length_nil]

theorem lor_write_channel_fade_eq (u : Nat) (c : LORChannel) (fr t dur ptr : Nat) (buf : Buf) :
    lor_write_channel_fade u c fr t dur ptr buf
      = (writeList buf ptr (channel_fade_bytes u c fr t dur),
         (channel_fade_bytes u c fr t dur).length) := by
  simp only [lor_write_channel_fade, lor_write_brightness, lor_write_duration]
  rw [lor_write_channel_eq]
  simp_arith [channel_fade_bytes, duration_bytes, writeList_append, writeList,
    List.length_append, List.length_cons, List.length_nil]

theorem lor_write_channel_fade_with_eq (u fg : Nat) (c : LORChannel) (fr t dur ptr : Nat)
    (buf : Buf) :
    lor_write_channel_fade_with u fg c fr t dur ptr buf
      = (writeList buf ptr (channel_fade_with_bytes u fg c fr t dur),
         (channel_fade_with_bytes u fg c fr t dur).length) := by
  simp only [lor_write_channel_fade_with, lor_write_brightness, lor_write_duration]
  rw [lor_write_channel_eq]
  simp_arith [channel_fade_with_bytes, duration_bytes, writeList_append, writeList,
    List.length_append, List.length_cons, List.length_nil]
  ring_nf

theorem writes_exactly_writeList (buf : Buf) (ptr : Nat) (msg : List Nat) :
    writes_exactly (writeList buf ptr msg, msg.length) ptr buf msg :=
  ⟨rfl, readBytes_writeList msg buf ptr, fun x hx => writeList_frame msg buf ptr x hx⟩

theorem map_mod_self (l : List Nat) (h : ∀ v ∈ l, v < 256) :
    l.map (fun v => v % 256) = l := by
  induction l with
  | nil => rfl
  | cons a rest ih =>
      have ha : a < 256 := h a (by simp)
      have hr : ∀ v ∈ rest, v < 256 := fun v hv => h v (by simp [hv])
      simp [Nat.mod_eq_of_lt ha, ih hr]

theorem and_ff_eq_mod (d : Nat) : d &&& 0xFF = d % 256 := by
  have h := Nat.and_pow_two_sub_one_eq_mod d 8
  norm_num at h
  exact h

theorem hi_byte_eq (d : Nat) (h : d < 65536) : (d &&& 0xFF00) >>> 8 = d / 256 := by
  have hdiv : d / 256 = d >>> 8 := by
    rw [Nat.shiftRight_eq_div_pow]
  apply Nat.eq_of_testBit_eq
  intro i
  rw [hdiv]
  simp only [Nat.testBit_shiftRight, Nat.testBit_and]
  by_cases hi8 : i < 8
  · have hbit : (0xFF00 : Nat).testBit (8 + i) = true := by
      interval_cases i <;> decide
    simp [hbit]
  · have hbit : d.testBit (8 + i) = false := by
      apply Nat.testBit_lt_two_pow
      calc d < 65536 := h
        _ = 2 ^ 16 := by norm_num
        _ ≤ 2 ^ (8 + i) := Nat.pow_le_pow_right (by norm_num) (by omega)
    simp [hbit]

theorem hi_byte_lt (d : Nat) : (d &&& 0xFF00) >>> 8 < 256 := by
  have h1 : d &&& 0xFF00 ≤ 0xFF00 := Nat.and_le_right
  have h2 : (d &&& 0xFF00) >>> 8 ≤ 0xFF00 >>> 8 := by
    simp only [Nat.shiftRight_eq_div_pow]
    exact Nat.div_le_div_right h1
  omega

theorem lo_byte_lt (d : Nat) : d &&& 0x00FF < 256 := by
  have := Nat.and_le_right (n := d) (m := 0x00FF)
  omega

theorem channel_bytes_lt (c : LORChannel) (hci : c.chain_index < 256)
    (hb : match c.type with | .mask16 => c.bits < 65536 | _ => c.bits < 256) :
    ∀ v ∈ channel_bytes c, v < 256 := by
  intro v hv
  obtain ⟨t, bits, ci⟩ := c
  simp only [channel_bytes] at hv
  cases t with
  | id =>
      simp only at hb
      rcases List.mem_append.mp hv with hv1 | hv2
      · rcases (by split at hv1 <;> simp_all : v = ci); exact hci
      · simp only [List.mem_singleton] at hv2
        subst hv2
        have : LOR_MAGIC_CHANNEL_ID_MASK ||| bits < 2 ^ 8 :=
          Nat.or_lt_two_pow (by decide) (by simpa using hb)
        simpa using this
  | mask8 =>
      simp only at hb
      rcases List.mem_append.mp hv with hv1 | hv2
      · rcases (by split at hv1 <;> simp_all : v = ci); exact hci
      · simp only [List.mem_singleton] at hv2
        omega
  | mask16 =>
      rcases List.mem_append.mp hv with hv1 | hv2
      · rcases (by split at hv1 <;> simp_all : v = ci); exact hci
      · simp only [List.mem_cons, List.mem_singleton] at hv2
        rcases hv2 with h1 | h2
        · subst h1; exact hi_byte_lt bits
        · rcases h2 with h2 | h2
          · subst h2; exact lo_byte_lt bits
          · cases h2

theorem channel_magic_lt (c : LORChannel) : lor_get_channel_magic c < 256 := by
  rcases c with ⟨t, b, ci⟩
  cases t <;>
    simp [lor_get_channel_magic, LOR_MAGIC_CHANNEL_ID, LOR_MAGIC_CHANNEL_MASK8,
      LOR_MAGIC_CHANNEL_MASK16]

theorem or_byte_lt {x y : Nat} (hx : x < 256) (hy : y < 256) : x ||| y < 256 := by
  have h := Nat.or_lt_two_pow (n := 8) (x := x) (y := y) (by simpa using hx) (by simpa using hy)
  simpa using h

theorem channel_bytes_len_le (c : LORChannel) : (channel_bytes c).length ≤ 3 := by
  rcases c with ⟨t, b, ci⟩
  cases t <;> by_cases h : ci > 0 <;> simp [channel_bytes, h]

/-- C1: `lor_write_channel` emits the chain index byte first exactly when
`chain_index > 0`, then the variant encoding (SingleId: tag bits OR'd with the
id; Mask8: the mask; Mask16: mask high byte then low byte); it returns
1 for SingleId without chain, 2 for SingleId/Mask8 with chain or Mask16
without chain, 3 for Mask16 with chain, and when `chain_index > 0` the first
emitted byte is the chain index.  Hypotheses restrict the fields to their C
types' ranges (`chain_index : uint8_t`, `bits : uint16_t`, masked to 8 bits
for the one-byte variants as the protocol requires). -/
theorem C1_write_channel (c : LORChannel) (ptr : Nat) (buf : Buf)
    (hci : c.chain_index < 256)
    (hb : match c.type with | .mask16 => c.bits < 65536 | _ => c.bits < 256) :
    (lor_write_channel c ptr buf).2
        = (if 0 < c.chain_index then 1 else 0)
          + (match c.type with | .mask16 => 2 | _ => 1) ∧
    readBytes (lor_write_channel c ptr buf).1 ptr (lor_write_channel c ptr buf).2
        = channel_bytes c ∧
    (0 < c.chain_index → (lor_write_channel c ptr buf).1 ptr = c.chain_index) := by
  have he := lor_write_channel_eq c ptr buf
  refine ⟨?_, ?_, ?_⟩
  · rw [he]
    rcases c with ⟨t, b, ci⟩
    by_cases h : ci > 0 <;> cases t <;> simp [channel_bytes, h]
  · rw [he]
    exact (readBytes_writeList _ _ _).trans (map_mod_self _ (channel_bytes_lt c hci hb))
  · intro h
    rw [he]
    have hcb : channel_bytes c = c.chain_index ::
        (match c.type with
         | .id => [LOR_MAGIC_CHANNEL_ID_MASK ||| c.bits]
         | .mask8 => [c.bits]
         | .mask16 => [(c.bits &&& 0xFF00) >>> 8, c.bits &&& 0x00FF]) := by
      simp [channel_bytes, h]
    show writeList buf ptr (channel_bytes c) ptr = c.chain_index
    rw [hcb]
    show writeList (upd buf ptr c.chain_index) (ptr + 1) _ ptr = c.chain_index
    rw [writeList_frame _ _ _ _ (Or.inl (by omega))]
    simp [upd, Nat.mod_eq_of_lt hci]

/-- Witness for C1: a Mask16 channel with mask `0x0102` and chain index 5
writes `[5, 1, 2]` and its first byte is the chain index. -/
theorem C1_write_channel_witness :
    readBytes (lor_write_channel ⟨.mask16, 0x0102, 5⟩ 0 bufZ).1 0
        (lor_write_channel ⟨.mask16, 0x0102, 5⟩ 0 bufZ).2
      = channel_bytes ⟨.mask16, 0x0102, 5⟩ ∧
    (lor_write_channel ⟨.mask16, 0x0102, 5⟩ 0 bufZ).1 0 = 5 := by
  have h := C1_write_channel ⟨.mask16, 0x0102, 5⟩ 0 bufZ (by decide) (by decide)
  exact ⟨h.2.1, h.2.2 (by decide)⟩

/-- C2: `lor_write_channel_fade_with` emits, in order: the unit byte, the
channel magic OR'd with the foreground action, the channel encoding exactly
once immediately after the foreground action byte, the AND-magic separator,
the channel magic OR'd with the FADE opcode, the two brightness bytes, and
the two duration bytes.  Hypotheses restrict the scalar arguments to their C
types' ranges. -/
theorem C2_fade_with_layout (u fg : Nat) (c : LORChannel) (fr t dur ptr : Nat) (buf : Buf)
    (hu : u < 256) (hfg : fg < 256) (hfr : fr < 256) (ht : t < 256)
    (hci : c.chain_index < 256)
    (hb : match c.type with | .mask16 => c.bits < 65536 | _ => c.bits < 256) :
    readBytes (lor_write_channel_fade_with u fg c fr t dur ptr buf).1 ptr
        (lor_write_channel_fade_with u fg c fr t dur ptr buf).2
      = [u, lor_get_channel_magic c ||| fg] ++ channel_bytes c ++
        [LOR_MAGIC_AND, lor_get_channel_magic c ||| LOR_ACTION_CHANNEL_FADE, fr, t] ++
        duration_bytes dur := by
  rw [lor_write_channel_fade_with_eq]
  refine (readBytes_writeList _ _ _).trans ?_
  show (channel_fade_with_bytes u fg c fr t dur).map (fun v => v % 256) = _
  refine (map_mod_self _ ?_).trans (by simp [channel_fade_with_bytes])
  intro v hv
  simp only [channel_fade_with_bytes, duration_bytes, List.append_assoc, List.mem_append,
    List.mem_cons, List.not_mem_nil, or_false] at hv
  rcases hv with (rfl | rfl) | hcb | (rfl | rfl | rfl | rfl) | (rfl | rfl)
  · exact hu
  · exact or_byte_lt (channel_magic_lt c) hfg
  · exact channel_bytes_lt c hci hb v hcb
  · simp [LOR_MAGIC_AND]
  · exact or_byte_lt (channel_magic_lt c) (by simp [LOR_ACTION_CHANNEL_FADE])
  · exact hfr
  · exact ht
  · exact hi_byte_lt dur
  · exact lo_byte_lt dur

/-- Witness for C2 at concrete inputs: unit 1, foreground action 2, SingleId
channel 7 without chain, brightness 128 to 255, duration `0x0304`. -/
theorem C2_fade_with_layout_witness :
    readBytes (lor_write_channel_fade_with 1 2 ⟨.id, 7, 0⟩ 128 255 0x0304 0 bufZ).1 0
        (lor_write_channel_fade_with 1 2 ⟨.id, 7, 0⟩ 128 255 0x0304 0 bufZ).2
      = [1, lor_get_channel_magic ⟨.id, 7, 0⟩ ||| 2] ++ channel_bytes ⟨.id, 7, 0⟩ ++
        [LOR_MAGIC_AND, lor_get_channel_magic ⟨.id, 7, 0⟩ ||| LOR_ACTION_CHANNEL_FADE,
          128, 255] ++ duration_bytes 0x0304 :=
  C2_fade_with_layout 1 2 ⟨.id, 7, 0⟩ 128 255 0x0304 0 bufZ (by decide) (by decide)
    (by decide) (by decide) (by decide) (by decide)

/-- Counterexample to C3: at a Mask16 channel with nonzero chain index,
`lor_write_channel_fade_with` returns 11, not 13.  The layout is
2 header bytes + 3 channel bytes + 2 sub-command bytes + 2 brightness bytes +
2 duration bytes = 11. -/
theorem C3_counterexample :
    ¬ ((lor_write_channel_fade_with 1 2 ⟨.mask16, 0xABCD, 1⟩ 3 4 5 0 bufZ).2 = 13) := by
  decide

/-- C3 amended: the maximum message size across all composers is 11 bytes,
attained by `lor_write_channel_fade_with` with a Mask16 channel reference
that has a nonzero chain index; no composer returns more than 11 on any
input (so the documented 13 remains a safe upper bound, just not tight). -/
theorem C3_amended :
    (∀ (u a fr t dur bits ci ptr : Nat) (buf : Buf), 0 < ci →
        (lor_write_channel_fade_with u a ⟨.mask16, bits, ci⟩ fr t dur ptr buf).2 = 11) ∧
    (∀ (ptr : Nat) (buf : Buf), (lor_write_heartbeat ptr buf).2 ≤ 11) ∧
    (∀ (u a ptr : Nat) (buf : Buf), (lor_write_unit_action u a ptr buf).2 ≤ 11) ∧
    (∀ (u a ptr : Nat) (c : LORChannel) (buf : Buf),
        (lor_write_channel_action u a c ptr buf).2 ≤ 11) ∧
    (∀ (u t ptr : Nat) (c : LORChannel) (buf : Buf),
        (lor_write_channel_set_brightness u c t ptr buf).2 ≤ 11) ∧
    (∀ (u fr t dur ptr : Nat) (c : LORChannel) (buf : Buf),
        (lor_write_channel_fade u c fr t dur ptr buf).2 ≤ 11) ∧
    (∀ (u a fr t dur ptr : Nat) (c : LORChannel) (buf : Buf),
        (lor_write_channel_fade_with u a c fr t dur ptr buf).2 ≤ 11) := by
  refine ⟨?_, ?_, ?_, ?_, ?_, ?_, ?_⟩
  · intro u a fr t dur bits ci ptr buf hci
    rw [lor_write_channel_fade_with_eq]
    simp [channel_fade_with_bytes, channel_bytes, duration_bytes, hci]
  · intro ptr buf
    simp [lor_write_heartbeat]
  · intro u a ptr buf
    simp [lor_write_unit_action]
  · intro u a ptr c buf
    rw [lor_write_channel_action_eq]
    have := channel_bytes_len_le c
    simp [channel_action_bytes]
    omega
  · intro u t ptr c buf
    rw [lor_write_channel_set_brightness_eq]
    have := channel_bytes_len_le c
    simp [channel_set_brightness_bytes]
    omega
  · intro u fr t dur ptr c buf
    rw [lor_write_channel_fade_eq]
    have := channel_bytes_len_le c
    simp [channel_fade_bytes, duration_bytes]
    omega
  · intro u a fr t dur ptr c buf
    rw [lor_write_channel_fade_with_eq]
    have := channel_bytes_len_le c
    simp [channel_fade_with_bytes, duration_bytes]
    omega

/-- Witness for C3 amended: the concrete Mask16-with-chain fade-with call
returns exactly 11. -/
theorem C3_amended_witness :
    (lor_write_channel_fade_with 1 2 ⟨.mask16, 0xABCD, 1⟩ 3 4 5 0 bufZ).2 = 11 :=
  C3_amended.1 1 2 3 4 5 0xABCD 1 0 bufZ (by decide)

/-- C4: no composer ever returns (or writes) more than 13 bytes, on any
input. -/
theorem C4_max_thirteen :
    (∀ (ptr : Nat) (buf : Buf), (lor_write_heartbeat ptr buf).2 ≤ 13) ∧
    (∀ (u a ptr : Nat) (buf : Buf), (lor_write_unit_action u a ptr buf).2 ≤ 13) ∧
    (∀ (u a ptr : Nat) (c : LORChannel) (buf : Buf),
        (lor_write_channel_action u a c ptr buf).2 ≤ 13) ∧
    (∀ (u t ptr : Nat) (c : LORChannel) (buf : Buf),
        (lor_write_channel_set_brightness u c t ptr buf).2 ≤ 13) ∧
    (∀ (u fr t dur ptr : Nat) (c : LORChannel) (buf : Buf),
        (lor_write_channel_fade u c fr t dur ptr buf).2 ≤ 13) ∧
    (∀ (u a fr t dur ptr : Nat) (c : LORChannel) (buf : Buf),
        (lor_write_channel_fade_with u a c fr t dur ptr buf).2 ≤ 13) := by
  refine ⟨?_, ?_, ?_, ?_, ?_, ?_⟩
  · intro ptr buf
    simp [lor_write_heartbeat]
  · intro u a ptr buf
    simp [lor_write_unit_action]
  · intro u a ptr c buf
    rw [lor_write_channel_action_eq]
    have := channel_bytes_len_le c
    simp [channel_action_bytes]
    omega
  · intro u t ptr c buf
    rw [lor_write_channel_set_brightness_eq]
    have := channel_bytes_len_le c
    simp [channel_set_brightness_bytes]
    omega
  · intro u fr t dur ptr c buf
    rw [lor_write_channel_fade_eq]
    have := channel_bytes_len_le c
    simp [channel_fade_bytes, duration_bytes]
    omega
  · intro u a fr t dur ptr c buf
    rw [lor_write_channel_fade_with_eq]
    have := channel_bytes_len_le c
    simp [channel_fade_with_bytes, duration_bytes]
    omega

/-- C5: `lor_write_duration` returns 2, writes the high byte of the 16-bit
tick count first and the low byte second, and recombining the two written
bytes as `high * 256 + low` reconstructs the tick count for every 16-bit
value. -/
theorem C5_write_duration (dur ptr : Nat) (buf : Buf) (h : dur < 65536) :
    (lor_write_duration dur ptr buf).2 = 2 ∧
    readBytes (lor_write_duration dur ptr buf).1 ptr 2 = [dur / 256, dur % 256] ∧
    (lor_write_duration dur ptr buf).1 ptr * 256
        + (lor_write_duration dur ptr buf).1 (ptr + 1) = dur := by
  have hhi : (dur &&& 0xFF00) >>> 8 = dur / 256 := hi_byte_eq dur h
  have hlo : dur &&& 0x00FF = dur % 256 := and_ff_eq_mod dur
  have h1 : (writeList buf ptr (duration_bytes dur)) ptr = ((dur &&& 0xFF00) >>> 8) % 256 := by
    show (upd (upd buf ptr _) (ptr + 1) _) ptr = _
    simp [upd, show ptr ≠ ptr + 1 from by omega]
  have h2 : (writeList buf ptr (duration_bytes dur)) (ptr + 1) = (dur &&& 0x00FF) % 256 := by
    show (upd (upd buf ptr _) (ptr + 1) _) (ptr + 1) = _
    simp [upd]
  refine ⟨rfl, ?_, ?_⟩
  · rw [lor_write_duration_eq]
    refine (readBytes_writeList _ _ _).trans ?_
    simp only [duration_bytes, List.map_cons, List.map_nil, List.cons.injEq, and_true]
    rw [hhi, hlo]
    omega
  · rw [lor_write_duration_eq]
    show writeList buf ptr (duration_bytes dur) ptr * 256
        + writeList buf ptr (duration_bytes dur) (ptr + 1) = dur
    rw [h1, h2, hhi, hlo]
    omega

/-- Witness for C5 at the spec's concrete example: `0x0102` encodes as
`[0x01, 0x02]` and recombines to `0x0102`. -/
theorem C5_write_duration_witness :
    (lor_write_duration 0x0102 0 bufZ).2 = 2 ∧
    readBytes (lor_write_duration 0x0102 0 bufZ).1 0 2 = [0x01, 0x02] ∧
    (lor_write_duration 0x0102 0 bufZ).1 0 * 256
        + (lor_write_duration 0x0102 0 bufZ).1 1 = 0x0102 :=
  C5_write_duration 0x0102 0 bufZ (by decide)

/-- C6: every write function writes exactly the `n` consecutive bytes of its
message starting at the caller-supplied cursor, where `n` is the value it
returns, and leaves every other buffer position — before the cursor and at
offset `n` or beyond — unchanged, so callers can chain calls by advancing the
cursor by the returned count.  `writes_exactly` states the returned count,
the written run, and the untouched frame. -/
theorem C6_exact_writes (ptr : Nat) (buf : Buf) (u a b fr t dur : Nat) (c : LORChannel)
    (curve : Float → Nat) (normal seconds : Float) :
    writes_exactly (lor_write_heartbeat ptr buf) ptr buf heartbeat_bytes ∧
    writes_exactly (lor_write_brightness b ptr buf) ptr buf [b] ∧
    writes_exactly (lor_write_brightnessf normal curve ptr buf) ptr buf [curve normal] ∧
    writes_exactly (lor_write_duration dur ptr buf) ptr buf (duration_bytes dur) ∧
    writes_exactly (lor_write_durationf seconds ptr buf) ptr buf
      (duration_bytes (lor_duration_of seconds)) ∧
    writes_exactly (lor_write_channel c ptr buf) ptr buf (channel_bytes c) ∧
    writes_exactly (lor_write_unit_action u a ptr buf) ptr buf (unit_action_bytes u a) ∧
    writes_exactly (lor_write_channel_action u a c ptr buf) ptr buf
      (channel_action_bytes u a c) ∧
    writes_exactly (lor_write_channel_set_brightness u c t ptr buf) ptr buf
      (channel_set_brightness_bytes u c t) ∧
    writes_exactly (lor_write_channel_fade u c fr t dur ptr buf) ptr buf
      (channel_fade_bytes u c fr t dur) ∧
    writes_exactly (lor_write_channel_fade_with u a c fr t dur ptr buf) ptr buf
      (channel_fade_with_bytes u a c fr t dur) := by
  refine ⟨?_, ?_, ?_, ?_, ?_, ?_, ?_, ?_, ?_, ?_, ?_⟩
  · rw [lor_write_heartbeat_eq]; exact writes_exactly_writeList buf ptr _
  · rw [lor_write_brightness_eq]; exact writes_exactly_writeList buf ptr _
  · rw [lor_write_brightnessf_eq]; exact writes_exactly_writeList buf ptr _
  · rw [lor_write_duration_eq]; exact writes_exactly_writeList buf ptr _
  · rw [lor_write_durationf_eq]; exact writes_exactly_writeList buf ptr _
  · rw [lor_write_channel_eq]; exact writes_exactly_writeList buf ptr _
  · rw [lor_write_unit_action_eq]; exact writes_exactly_writeList buf ptr _
  · rw [lor_write_channel_action_eq]; exact writes_exactly_writeList buf ptr _
  · rw [lor_write_channel_set_brightness_eq]; exact writes_exactly_writeList buf ptr _
  · rw [lor_write_channel_fade_eq]; exact writes_exactly_writeList buf ptr _
  · rw [lor_write_channel_fade_with_eq]; exact writes_exactly_writeList buf ptr _

/-- Witness for C6: concrete frame facts — the heartbeat at cursor 0 leaves
address 7 untouched, and the fade-with composer at cursor 2 leaves addresses
0 and 20 untouched. -/
theorem C6_exact_writes_witness :
    (lor_write_heartbeat 0 bufZ).1 7 = bufZ 7 ∧
    (lor_write_channel_fade_with 1 2 ⟨.mask16, 0xABCD, 1⟩ 3 4 5 2 bufZ).1 0 = bufZ 0 ∧
    (lor_write_channel_fade_with 1 2 ⟨.mask16, 0xABCD, 1⟩ 3 4 5 2 bufZ).1 20 = bufZ 20 := by
  have h1 := C6_exact_writes 0 bufZ 0 0 0 0 0 0 ⟨.id, 0, 0⟩ (fun _ => 0) 0 0
  have h2 := C6_exact_writes 2 bufZ 1 2 0 3 4 5 ⟨.mask16, 0xABCD, 1⟩ (fun _ => 0) 0 0
  refine ⟨h1.1.2.2 7 (Or.inr (by decide)), ?_, ?_⟩
  · exact h2.2.2.2.2.2.2.2.2.2.2.2.2 0 (Or.inl (by decide))
  · exact h2.2.2.2.2.2.2.2.2.2.2.2.2 20 (Or.inr (by decide))

/-- C7: `lor_write_unit_action` writes exactly the unit byte followed by the
action byte and returns 2, for every unit and action in the C argument
ranges. -/
theorem C7_unit_action (u a ptr : Nat) (buf : Buf) (hu : u < 256) (ha : a < 256) :
    (lor_write_unit_action u a ptr buf).2 = 2 ∧
    readBytes (lor_write_unit_action u a ptr buf).1 ptr 2 = [u, a] := by
  refine ⟨rfl, ?_⟩
  rw [lor_write_unit_action_eq]
  refine (readBytes_writeList _ _ _).trans ?_
  simp [unit_action_bytes, Nat.mod_eq_of_lt hu, Nat.mod_eq_of_lt ha]

/-- Witness for C7: unit 1, action 2 at cursor 0 produce `[1, 2]` and count 2. -/
theorem C7_unit_action_witness :
    (lor_write_unit_action 1 2 0 bufZ).2 = 2 ∧
    readBytes (lor_write_unit_action 1 2 0 bufZ).1 0 2 = [1, 2] :=
  C7_unit_action 1 2 0 bufZ (by decide) (by decide)

/-- C8: each composer is a pure function of its arguments — two calls with
identical arguments, whatever the cursors and the initial contents of the two
destination buffers, return equal counts and write byte-identical runs. -/
theorem C8_deterministic (ptr1 ptr2 : Nat) (buf1 buf2 : Buf) (u a fr t dur : Nat)
    (c : LORChannel) :
    ((lor_write_heartbeat ptr1 buf1).2 = (lor_write_heartbeat ptr2 buf2).2 ∧
      readBytes (lor_write_heartbeat ptr1 buf1).1 ptr1 (lor_write_heartbeat ptr1 buf1).2
        = readBytes (lor_write_heartbeat ptr2 buf2).1 ptr2 (lor_write_heartbeat ptr2 buf2).2) ∧
    ((lor_write_unit_action u a ptr1 buf1).2 = (lor_write_unit_action u a ptr2 buf2).2 ∧
      readBytes (lor_write_unit_action u a ptr1 buf1).1 ptr1
          (lor_write_unit_action u a ptr1 buf1).2
        = readBytes (lor_write_unit_action u a ptr2 buf2).1 ptr2
            (lor_write_unit_action u a ptr2 buf2).2) ∧
    ((lor_write_channel_action u a c ptr1 buf1).2
        = (lor_write_channel_action u a c ptr2 buf2).2 ∧
      readBytes (lor_write_channel_action u a c ptr1 buf1).1 ptr1
          (lor_write_channel_action u a c ptr1 buf1).2
        = readBytes (lor_write_channel_action u a c ptr2 buf2).1 ptr2
            (lor_write_channel_action u a c ptr2 buf2).2) ∧
    ((lor_write_channel_set_brightness u c t ptr1 buf1).2
        = (lor_write_channel_set_brightness u c t ptr2 buf2).2 ∧
      readBytes (lor_write_channel_set_brightness u c t ptr1 buf1).1 ptr1
          (lor_write_channel_set_brightness u c t ptr1 buf1).2
        = readBytes (lor_write_channel_set_brightness u c t ptr2 buf2).1 ptr2
            (lor_write_channel_set_brightness u c t ptr2 buf2).2) ∧
    ((lor_write_channel_fade u c fr t dur ptr1 buf1).2
        = (lor_write_channel_fade u c fr t dur ptr2 buf2).2 ∧
      readBytes (lor_write_channel_fade u c fr t dur ptr1 buf1).1 ptr1
          (lor_write_channel_fade u c fr t dur ptr1 buf1).2
        = readBytes (lor_write_channel_fade u c fr t dur ptr2 buf2).1 ptr2
            (lor_write_channel_fade u c fr t dur ptr2 buf2).2) ∧
    ((lor_write_channel_fade_with u a c fr t dur ptr1 buf1).2
        = (lor_write_channel_fade_with u a c fr t dur ptr2 buf2).2 ∧
      readBytes (lor_write_channel_fade_with u a c fr t dur ptr1 buf1).1 ptr1
          (lor_write_channel_fade_with u a c fr t dur ptr1 buf1).2
        = readBytes (lor_write_channel_fade_with u a c fr t dur ptr2 buf2).1 ptr2
            (lor_write_channel_fade_with u a c fr t dur ptr2 buf2).2) := by
  refine ⟨?_, ?_, ?_, ?_, ?_, ?_⟩
  · rw [lor_write_heartbeat_eq, lor_write_heartbeat_eq]
    exact ⟨rfl, (readBytes_writeList _ _ _).trans (readBytes_writeList _ _ _).symm⟩
  · rw [lor_write_unit_action_eq, lor_write_unit_action_eq]
    exact ⟨rfl, (readBytes_writeList _ _ _).trans (readBytes_writeList _ _ _).symm⟩
  · rw [lor_write_channel_action_eq, lor_write_channel_action_eq]
    exact ⟨rfl, (readBytes_writeList _ _ _).trans (readBytes_writeList _ _ _).symm⟩
  · rw [lor_write_channel_set_brightness_eq, lor_write_channel_set_brightness_eq]
    exact ⟨rfl, (readBytes_writeList _ _ _).trans (readBytes_writeList _ _ _).symm⟩
  · rw [lor_write_channel_fade_eq, lor_write_channel_fade_eq]
    exact ⟨rfl, (readBytes_writeList _ _ _).trans (readBytes_writeList _ _ _).symm⟩
  · rw [lor_write_channel_fade_with_eq, lor_write_channel_fade_with_eq]
    exact ⟨rfl, (readBytes_writeList _ _ _).trans (readBytes_writeList _ _ _).symm⟩

/-- C9: no write function reads the destination buffer — with the same
arguments and cursor but arbitrarily different initial buffer contents, every
write function returns the same count and writes the same byte values at the
same offsets. -/
theorem C9_no_buffer_reads (ptr : Nat) (buf1 buf2 : Buf) (u a b fr t dur : Nat)
    (c : LORChannel) (curve : Float → Nat) (normal seconds : Float) :
    ((lor_write_heartbeat ptr buf1).2 = (lor_write_heartbeat ptr buf2).2 ∧
      readBytes (lor_write_heartbeat ptr buf1).1 ptr (lor_write_heartbeat ptr buf1).2
        = readBytes (lor_write_heartbeat ptr buf2).1 ptr (lor_write_heartbeat ptr buf2).2) ∧
    ((lor_write_brightness b ptr buf1).2 = (lor_write_brightness b ptr buf2).2 ∧
      readBytes (lor_write_brightness b ptr buf1).1 ptr (lor_write_brightness b ptr buf1).2
        = readBytes (lor_write_brightness b ptr buf2).1 ptr
            (lor_write_brightness b ptr buf2).2) ∧
    ((lor_write_brightnessf normal curve ptr buf1).2
        = (lor_write_brightnessf normal curve ptr buf2).2 ∧
      readBytes (lor_write_brightnessf normal curve ptr buf1).1 ptr
          (lor_write_brightnessf normal curve ptr buf1).2
        = readBytes (lor_write_brightnessf normal curve ptr buf2).1 ptr
            (lor_write_brightnessf normal curve ptr buf2).2) ∧
    ((lor_write_duration dur ptr buf1).2 = (lor_write_duration dur ptr buf2).2 ∧
      readBytes (lor_write_duration dur ptr buf1).1 ptr (lor_write_duration dur ptr buf1).2
        = readBytes (lor_write_duration dur ptr buf2).1 ptr
            (lor_write_duration dur ptr buf2).2) ∧
    ((lor_write_durationf seconds ptr buf1).2 = (lor_write_durationf seconds ptr buf2).2 ∧
      readBytes (lor_write_durationf seconds ptr buf1).1 ptr
          (lor_write_durationf seconds ptr buf1).2
        = readBytes (lor_write_durationf seconds ptr buf2).1 ptr
            (lor_write_durationf seconds ptr buf2).2) ∧
    ((lor_write_channel c ptr buf1).2 = (lor_write_channel c ptr buf2).2 ∧
      readBytes (lor_write_channel c ptr buf1).1 ptr (lor_write_channel c ptr buf1).2
        = readBytes (lor_write_channel c ptr buf2).1 ptr (lor_write_channel c ptr buf2).2) ∧
    ((lor_write_unit_action u a ptr buf1).2 = (lor_write_unit_action u a ptr buf2).2 ∧
      readBytes (lor_write_unit_action u a ptr buf1).1 ptr
          (lor_write_unit_action u a ptr buf1).2
        = readBytes (lor_write_unit_action u a ptr buf2).1 ptr
            (lor_write_unit_action u a ptr buf2).2) ∧
    ((lor_write_channel_action u a c ptr buf1).2
        = (lor_write_channel_action u a c ptr buf2).2 ∧
      readBytes (lor_write_channel_action u a c ptr buf1).1 ptr
          (lor_write_channel_action u a c ptr buf1).2
        = readBytes (lor_write_channel_action u a c ptr buf2).1 ptr
            (lor_write_channel_action u a c ptr buf2).2) ∧
    ((lor_write_channel_set_brightness u c t ptr buf1).2
        = (lor_write_channel_set_brightness u c t ptr buf2).2 ∧
      readBytes (lor_write_channel_set_brightness u c t ptr buf1).1 ptr
          (lor_write_channel_set_brightness u c t ptr buf1).2
        = readBytes (lor_write_channel_set_brightness u c t ptr buf2).1 ptr
            (lor_write_channel_set_brightness u c t ptr buf2).2) ∧
    ((lor_write_channel_fade u c fr t dur ptr buf1).2
        = (lor_write_channel_fade u c fr t dur ptr buf2).2 ∧
      readBytes (lor_write_channel_fade u c fr t dur ptr buf1).1 ptr
          (lor_write_channel_fade u c fr t dur ptr buf1).2
        = readBytes (lor_write_channel_fade u c fr t dur ptr buf2).1 ptr
            (lor_write_channel_fade u c fr t dur ptr buf2).2) ∧
    ((lor_write_channel_fade_with u a c fr t dur ptr buf1).2
        = (lor_write_channel_fade_with u a c fr t dur ptr buf2).2 ∧
      readBytes (lor_write_channel_fade_with u a c fr t dur ptr buf1).1 ptr
          (lor_write_channel_fade_with u a c fr t dur ptr buf1).2
        = readBytes (lor_write_channel_fade_with u a c fr t dur ptr buf2).1 ptr
            (lor_write_channel_fade_with u a c fr t dur ptr buf2).2) := by
  refine ⟨?_, ?_, ?_, ?_, ?_, ?_, ?_, ?_, ?_, ?_, ?_⟩
  · rw [lor_write_heartbeat_eq, lor_write_heartbeat_eq]
    exact ⟨rfl, (readBytes_writeList _ _ _).trans (readBytes_writeList _ _ _).symm⟩
  · rw [lor_write_brightness_eq, lor_write_brightness_eq]
    exact ⟨rfl, (readBytes_writeList _ _ _).trans (readBytes_writeList _ _ _).symm⟩
  · rw [lor_write_brightnessf_eq, lor_write_brightnessf_eq]
    exact ⟨rfl, (readBytes_writeList _ _ _).trans (readBytes_writeList _ _ _).symm⟩
  · rw [lor_write_duration_eq, lor_write_duration_eq]
    exact ⟨rfl, (readBytes_writeList _ _ _).trans (readBytes_writeList _ _ _).symm⟩
  · rw [lor_write_durationf_eq, lor_write_durationf_eq]
    exact ⟨rfl, (readBytes_writeList _ _ _).trans (readBytes_writeList _ _ _).symm⟩
  · rw [lor_write_channel_eq, lor_write_channel_eq]
    exact ⟨rfl, (readBytes_writeList _ _ _).trans (readBytes_writeList _ _ _).symm⟩
  · rw [lor_write_unit_action_eq, lor_write_unit_action_eq]
    exact ⟨rfl, (readBytes_writeList _ _ _).trans (readBytes_writeList _ _ _).symm⟩
  · rw [lor_write_channel_action_eq, lor_write_channel_action_eq]
    exact ⟨rfl, (readBytes_writeList _ _ _).trans (readBytes_writeList _ _ _).symm⟩
  · rw [lor_write_channel_set_brightness_eq, lor_write_channel_set_brightness_eq]
    exact ⟨rfl, (readBytes_writeList _ _ _).trans (readBytes_writeList _ _ _).symm⟩
  · rw [lor_write_channel_fade_eq, lor_write_channel_fade_eq]
    exact ⟨rfl, (readBytes_writeList _ _ _).trans (readBytes_writeList _ _ _).symm⟩
  · rw [lor_write_channel_fade_with_eq, lor_write_channel_fade_with_eq]
    exact ⟨rfl, (readBytes_writeList _ _ _).trans (readBytes_writeList _ _ _).symm⟩

/-- Counterexample to C10: for a SingleId channel without chain index,
`lor_write_channel` returns 1 but `lor_write_channel_fade` returns 7, not
7 + 1 = 8 as the claim's `7 + C` formula states.  The fade composer's fixed
overhead is 6 bytes (unit, action, two brightness bytes, two duration
bytes), not 7. -/
theorem C10_counterexample :
    ¬ ((lor_write_channel_fade 1 ⟨.id, 0, 0⟩ 0 0 0 0 bufZ).2
        = 7 + (lor_write_channel ⟨.id, 0, 0⟩ 0 bufZ).2) := by
  decide

/-- C10 amended: each channel-addressed composer returns a fixed overhead
plus `lor_write_channel`'s count `C` for the same channel value:
`lor_write_channel_action` returns `2 + C`, `lor_write_channel_set_brightness`
`3 + C`, `lor_write_channel_fade` `6 + C`, and `lor_write_channel_fade_with`
`8 + C`; and `C` itself depends only on the channel's variant tag and on
whether `chain_index` is nonzero, never on the other argument values. -/
theorem C10_amended (u a fr t dur ptr ptr2 : Nat) (c : LORChannel) (buf buf2 : Buf) :
    (lor_write_channel_action u a c ptr buf).2
        = 2 + (lor_write_channel c ptr2 buf2).2 ∧
    (lor_write_channel_set_brightness u c t ptr buf).2
        = 3 + (lor_write_channel c ptr2 buf2).2 ∧
    (lor_write_channel_fade u c fr t dur ptr buf).2
        = 6 + (lor_write_channel c ptr2 buf2).2 ∧
    (lor_write_channel_fade_with u a c fr t dur ptr buf).2
        = 8 + (lor_write_channel c ptr2 buf2).2 ∧
    (lor_write_channel c ptr2 buf2).2
        = (if 0 < c.chain_index then 1 else 0)
          + (match c.type with | .mask16 => 2 | _ => 1) := by
  rw [lor_write_channel_action_eq, lor_write_channel_set_brightness_eq,
    lor_write_channel_fade_eq, lor_write_channel_fade_with_eq, lor_write_channel_eq]
  refine ⟨?_, ?_, ?_, ?_, ?_⟩
  · simp [channel_action_bytes]
    omega
  · simp [channel_set_brightness_bytes]
    omega
  · simp [channel_fade_bytes, duration_bytes]
    omega
  · simp [channel_fade_with_bytes, duration_bytes]
    omega
  · rcases c with ⟨tt, bits, ci⟩
    by_cases h : ci > 0 <;> cases tt <;> simp [channel_bytes, h]

end LOR
